import Mathlib

/-!
Verification of the real-time voice streaming session manager
(`server/services/voiceStreaming.ts`).

The development shallowly embeds the `VoiceStreamingService` class: the
session registry (`activeSessions : Map<string, VoiceStreamingSession>`)
becomes an association list with unique keys, socket sends become lists of
emitted frames, and the event handlers become pure functions from parsed
input to emitted frames and updated state.  Fallible collaborators
(JSON parsing, the storage layer, the two upstream connects) are modelled
by explicit success/failure parameters.
-/

namespace VoiceStreaming

/-- ws `readyState` values (`CONNECTING`, `OPEN`, `CLOSING`, `CLOSED`). -/
inductive WsReadyState
  | CONNECTING
  | OPEN
  | CLOSING
  | CLOSED
deriving DecidableEq

/-- A handle to the upstream ElevenLabs WebSocket, reduced to the one field
the service reads (`readyState`). -/
structure WsHandle where
  readyState : WsReadyState
deriving DecidableEq

/-- The `VoiceStreamingSession` interface of `voiceStreaming.ts` (the unused
`geminiSession` field is omitted). -/
structure VoiceStreamingSession where
  sessionId : String
  conversationId : String
  elevenLabsWs : Option WsHandle
  isActive : Bool
  startTime : Nat
deriving DecidableEq

/-- Server-to-client frames emitted by the service (`clientWs.send`). -/
inductive ServerFrame
  | voice_ready (message : String)
  | audio_output (audio : String) (alignment : Option String)
  | audio_processing (message : String)
  | error (message : String)
deriving DecidableEq

/-- Wire frames sent to the ElevenLabs socket by the message handlers.
`processTextInput` sends `{text, try_trigger_generation: true}` and
`handleStopSpeaking` sends `{text: "", flush: true}`; a field that the
source frame does not carry is `none`. -/
structure ElevenLabsOutFrame where
  text : String
  try_trigger_generation : Option Bool
  flush : Option Bool
deriving DecidableEq

/-- Inbound client frames after `JSON.parse`, keyed by the `type`
discriminator; `other` covers every unknown discriminator (e.g. `ping`). -/
inductive ClientFrame
  | audio_input (audio : String)
  | text_input (text : String)
  | stop
  | other (type : String)
deriving DecidableEq

/-- The registry `activeSessions : Map<string, VoiceStreamingSession>`,
modelled as an association list. -/
abbrev Registry := List (String × VoiceStreamingSession)

/-- `Map.get`. -/
def mapGet (st : Registry) (k : String) : Option VoiceStreamingSession :=
  match st with
  | [] => none
  | (k₁, v) :: rest => if k₁ = k then some v else mapGet rest k

/-- `Map.set`: replaces the entry at the key if present, appends otherwise. -/
def mapSet (st : Registry) (k : String) (v : VoiceStreamingSession) : Registry :=
  match st with
  | [] => [(k, v)]
  | (k₁, v₁) :: rest => if k₁ = k then (k, v) :: rest else (k₁, v₁) :: mapSet rest k v

/-- `Map.delete`. -/
def mapDelete (st : Registry) (k : String) : Registry :=
  match st with
  | [] => []
  | (k₁, v₁) :: rest => if k₁ = k then mapDelete rest k else (k₁, v₁) :: mapDelete rest k

/-- Key uniqueness: the invariant a JS `Map` maintains structurally. -/
def RegistryWF (st : Registry) : Prop := (st.map Prod.fst).Nodup

/-- Observable side effects of session teardown. -/
inductive TeardownEffect
  | closeLink
  | deleteEntry (key : String)
deriving DecidableEq

/-- `cleanupSession(sessionId)`: looks the session up; if present, marks it
inactive, closes its ElevenLabs socket when one was attached, and deletes
the map entry.  On an absent key it does nothing.  The returned list is the
trace of side effects performed. -/
def cleanupSession (st : Registry) (sessionId : String) :
    Registry × List TeardownEffect :=
  match mapGet st sessionId with
  | none => (st, [])
  | some session =>
      let closeEffs : List TeardownEffect :=
        match session.elevenLabsWs with
        | some _ => [TeardownEffect.closeLink]
        | none => []
      (mapDelete st sessionId, closeEffs ++ [TeardownEffect.deleteEntry sessionId])

/-- The sessionKey built at the top of `initializeVoiceSession`:
the template string `sessionId-Date.now()`. -/
def sessionKeyOf (sessionId : String) (now : Nat) : String :=
  sessionId ++ "-" ++ toString now

/-- The `VoiceStreamingSession` literal constructed before the `try` block. -/
def freshSession (streamSessionId conversationId : String) (now : Nat) :
    VoiceStreamingSession :=
  { sessionId := streamSessionId
    conversationId := conversationId
    elevenLabsWs := none
    isActive := true
    startTime := now }

/-- The body of `initializeVoiceSession`.  `now` is the value `Date.now()`
returns for this call; `elevenLabsFails` (resp. `geminiFails`) says whether
the awaited `initializeElevenLabs` (resp. `initializeGeminiLive`) call
rejects.  On success the ElevenLabs handle is attached to the stored
session and, at the end of `initializeGeminiLive`, `voice_ready` is sent;
on failure the `catch` block sends the structured error frame and calls
`cleanupSession`.  Returns the updated registry and the frames sent to the
client socket. -/
def initVoiceSession (st : Registry) (sessionId conversationId : String)
    (now : Nat) (elevenLabsFails geminiFails : Bool) :
    Registry × List ServerFrame :=
  let streamSessionId := sessionKeyOf sessionId now
  let voiceSession := freshSession streamSessionId conversationId now
  let st₁ := mapSet st streamSessionId voiceSession
  if elevenLabsFails then
    ((cleanupSession st₁ streamSessionId).1,
     [ServerFrame.error "Failed to initialize voice streaming"])
  else
    let st₂ := mapSet st₁ streamSessionId
      { voiceSession with elevenLabsWs := some ⟨WsReadyState.CONNECTING⟩ }
    if geminiFails then
      ((cleanupSession st₂ streamSessionId).1,
       [ServerFrame.error "Failed to initialize voice streaming"])
    else
      (st₂, [ServerFrame.voice_ready "Voice streaming ready"])

/-- The ElevenLabs socket `error` handler: it logs and sends one error
frame to the client; it touches neither the registry nor the session nor
the socket, so the unchanged state is returned along with the emitted
frames and the (empty) trace of teardown effects. -/
def onElevenLabsError (st : Registry) (sess : VoiceStreamingSession) :
    Registry × VoiceStreamingSession × List ServerFrame × List TeardownEffect :=
  (st, sess, [ServerFrame.error "TTS connection error"], [])

/-- The client socket `close` handler: `cleanupSession(voiceSession.sessionId)`. -/
def onClientClose (st : Registry) (sess : VoiceStreamingSession) :
    Registry × List TeardownEffect :=
  cleanupSession st sess.sessionId

/-- JavaScript truthiness of the optional string field `response.audio`
(absent and the empty string are falsy). -/
def truthy : Option String → Bool
  | none => false
  | some s => !(s == "")

/-- A provider frame after `JSON.parse`: `{audio?, alignment?, isFinal?}`. -/
structure ElevenLabsInFrame where
  audio : Option String
  alignment : Option String
  isFinal : Bool
deriving DecidableEq

/-- Observable events of the provider-message path, in program order. -/
inductive SessionEvent
  | clientSend (frame : ServerFrame)
  | cachePersist (sessionId conversationId audioUrl secureToken : String)
  | cacheFailureLogged
deriving DecidableEq

/-- `cacheAudioOutput`: generates a token, derives the URL, and calls
`storage.createAudioCache`; a storage failure is caught and logged inside
this function (`storageFails` says whether the storage call rejects). -/
def cacheAudioOutput (sessionId conversationId _audioBase64 : String)
    (secureToken : String) (storageFails : Bool) : List SessionEvent :=
  let audioUrl := "/api/audio/" ++ secureToken
  if storageFails then [SessionEvent.cacheFailureLogged]
  else [SessionEvent.cachePersist sessionId conversationId audioUrl secureToken]

/-- The ElevenLabs socket `message` handler.  `parsed` is `none` when
`JSON.parse` throws (the catch block only logs).  When the parsed frame has
a truthy `audio` field, an `audio_output` frame is sent to the client
first, and then, if `isFinal` is truthy, `cacheAudioOutput` runs. -/
def onElevenLabsMessage (sess : VoiceStreamingSession)
    (parsed : Option ElevenLabsInFrame) (secureToken : String)
    (storageFails : Bool) : List SessionEvent :=
  match parsed with
  | none => []
  | some response =>
      if truthy response.audio then
        SessionEvent.clientSend
            (ServerFrame.audio_output (response.audio.getD "") response.alignment)
          :: (if response.isFinal then
                cacheAudioOutput sess.sessionId sess.conversationId
                  (response.audio.getD "") secureToken storageFails
              else [])
      else []

/-- The guard `voiceSession.elevenLabsWs && readyState === WebSocket.OPEN`. -/
def wsIsOpen : Option WsHandle → Bool
  | none => false
  | some ws => ws.readyState == WsReadyState.OPEN

/-- `processTextInput`: when the ElevenLabs socket is not attached or not
`OPEN`, it logs and returns without sending; otherwise it sends exactly
`{text, try_trigger_generation: true}` upstream. -/
def processTextInput (sess : VoiceStreamingSession) (text : String) :
    List ElevenLabsOutFrame :=
  if !wsIsOpen sess.elevenLabsWs then []
  else [{ text := text, try_trigger_generation := some true, flush := none }]

/-- `handleStopSpeaking`: when the socket is not `OPEN` it returns without
sending; otherwise it sends exactly `{text: "", flush: true}` upstream. -/
def handleStopSpeaking (sess : VoiceStreamingSession) :
    List ElevenLabsOutFrame :=
  if !wsIsOpen sess.elevenLabsWs then []
  else [{ text := "", try_trigger_generation := none, flush := some true }]

/-- The client socket `message` handler of `setupClientHandlers`: parse
failure is caught and logged (`parsed = none`); the switch dispatches on
the `type` discriminator; the default case only warns.  Returns the
registry, the session, the frames sent to the client, and the frames sent
upstream — no branch mutates the registry or the session. -/
def handleClientMessage (st : Registry) (sess : VoiceStreamingSession)
    (parsed : Option ClientFrame) :
    Registry × VoiceStreamingSession × List ServerFrame × List ElevenLabsOutFrame :=
  match parsed with
  | none => (st, sess, [], [])
  | some (ClientFrame.audio_input _) =>
      (st, sess, [ServerFrame.audio_processing "Processing your speech..."], [])
  | some (ClientFrame.text_input text) =>
      (st, sess, [], processTextInput sess text)
  | some ClientFrame.stop =>
      (st, sess, [], handleStopSpeaking sess)
  | some (ClientFrame.other _) => (st, sess, [], [])

/-- The three prompt texts of `getPersonalitySystemPrompt`. -/
def promptAutisticAI : String :=
  "You are AUtistic AI, specialized in meme coins and creative content. Be casual, fun, and knowledgeable about crypto culture."

/-- Prompt text of the `Level 1 ASD` personality. -/
def promptLevel1ASD : String :=
  "You are Level 1 ASD, focused on learning, facts, and solving complex problems. Be analytical and educational."

/-- Prompt text of the `Savantist` personality. -/
def promptSavantist : String :=
  "You are Savantist, the expert in advanced trading insights. Provide deep analysis with maximum detail and precision."

/-- A JavaScript value observable as the result of the property access
`prompts[personality]`: one of the object's own prompt strings, a value
inherited from `Object.prototype` (a method, or the prototype object for
`__proto__` — all truthy and none of them a prompt), or `undefined`. -/
inductive JsValue
  | promptText (s : String)
  | inherited (name : String)
  | undefined
deriving DecidableEq

/-- Property names the object literal `prompts` inherits from
`Object.prototype`, every one of which yields a truthy value on lookup. -/
def protoProps : List String :=
  ["constructor", "hasOwnProperty", "isPrototypeOf", "propertyIsEnumerable",
   "toLocaleString", "toString", "valueOf", "__defineGetter__",
   "__defineSetter__", "__lookupGetter__", "__lookupSetter__", "__proto__"]

/-- The JS property access `prompts[personality]`: own data properties
first, then the prototype chain (`Object.prototype`), else `undefined`. -/
def promptsLookup (personality : String) : JsValue :=
  if personality = "AUtistic AI" then JsValue.promptText promptAutisticAI
  else if personality = "Level 1 ASD" then JsValue.promptText promptLevel1ASD
  else if personality = "Savantist" then JsValue.promptText promptSavantist
  else if personality ∈ protoProps then JsValue.inherited personality
  else JsValue.undefined

/-- JavaScript truthiness of a looked-up value: a string is truthy iff
non-empty; inherited prototype members are truthy; `undefined` is falsy. -/
def jsTruthy : JsValue → Bool
  | JsValue.promptText s => !(s == "")
  | JsValue.inherited _ => true
  | JsValue.undefined => false

/-- `getPersonalitySystemPrompt`: the expression
`prompts[personality] || prompts['AUtistic AI']` with JS lookup and
truthiness semantics — the fallback fires only when the lookup result is
falsy, so inherited `Object.prototype` members are returned as-is. -/
def getPersonalitySystemPrompt (personality : String) : JsValue :=
  if jsTruthy (promptsLookup personality) then promptsLookup personality
  else promptsLookup "AUtistic AI"

/-- Client-bound frames among the events of the provider-message path. -/
def clientFrames : List SessionEvent → List ServerFrame
  | [] => []
  | SessionEvent.clientSend f :: rest => f :: clientFrames rest
  | SessionEvent.cachePersist _ _ _ _ :: rest => clientFrames rest
  | SessionEvent.cacheFailureLogged :: rest => clientFrames rest

/-- Number of cache-persist attempts (successful or failed) in a trace. -/
def cacheAttempts : List SessionEvent → Nat
  | [] => 0
  | SessionEvent.clientSend _ :: rest => cacheAttempts rest
  | SessionEvent.cachePersist _ _ _ _ :: rest => cacheAttempts rest + 1
  | SessionEvent.cacheFailureLogged :: rest => cacheAttempts rest + 1

/-- An upstream connect failure as it actually unfolds at runtime: the
body of `initializeElevenLabs` only constructs the socket and registers
handlers, so its promise resolves at once and a failed DNS/TCP/handshake
surfaces later as the socket's `error` event.  By then the awaited chain
has already run `initializeGeminiLive` (which sent `voice_ready`) and
`setupClientHandlers`.  This composes the two steps in that event order:
successful initialization, then the `error` handler on the stored
session.  Returns the final registry and all frames sent to the client. -/
def initThenAsyncConnectFailure (st : Registry) (sid cid : String)
    (now : Nat) : Registry × List ServerFrame :=
  let r₁ := initVoiceSession st sid cid now false false
  match mapGet r₁.1 (sessionKeyOf sid now) with
  | some sess =>
      let r₂ := onElevenLabsError r₁.1 sess
      (r₂.1, r₁.2 ++ r₂.2.2.1)
  | none => r₁

end VoiceStreaming

open VoiceStreaming

section MapLemmas

theorem mapGet_mapDelete_self (st : Registry) (k : String) :
    mapGet (mapDelete st k) k = none := by
  induction st with
  | nil => rfl
  | cons p rest ih =>
      obtain ⟨k₁, v₁⟩ := p
      by_cases h : k₁ = k
      · simp [mapDelete, h, ih]
      · simp [mapDelete, mapGet, h, ih]

theorem mapGet_mapDelete_ne (st : Registry) (k k' : String) (h : k' ≠ k) :
    mapGet (mapDelete st k) k' = mapGet st k' := by
  induction st with
  | nil => rfl
  | cons p rest ih =>
      obtain ⟨k₁, v₁⟩ := p
      by_cases hk : k₁ = k
      · subst hk
        have hne : ¬ k₁ = k' := fun hh => h hh.symm
        simp [mapDelete, mapGet, hne, ih]
      · simp only [mapDelete, if_neg hk, mapGet]
        by_cases hk' : k₁ = k'
        · simp [hk']
        · simp [hk', ih]

theorem mapGet_mapSet_self (st : Registry) (k : String) (v : VoiceStreamingSession) :
    mapGet (mapSet st k v) k = some v := by
  induction st with
  | nil => simp [mapSet, mapGet]
  | cons p rest ih =>
      obtain ⟨k₁, v₁⟩ := p
      by_cases h : k₁ = k
      · simp [mapSet, h, mapGet]
      · simp [mapSet, h, mapGet, ih]

theorem mapGet_mapSet_ne (st : Registry) (k k' : String)
    (v : VoiceStreamingSession) (h : k' ≠ k) :
    mapGet (mapSet st k v) k' = mapGet st k' := by
  have hne : ¬ k = k' := fun hh => h hh.symm
  induction st with
  | nil => simp [mapSet, mapGet, if_neg hne]
  | cons p rest ih =>
      obtain ⟨k₁, v₁⟩ := p
      by_cases hk : k₁ = k
      · subst hk
        have hne₁ : ¬ k₁ = k' := fun hh => h hh.symm
        simp [mapSet, mapGet, hne₁]
      · simp only [mapSet, if_neg hk, mapGet]
        by_cases hk' : k₁ = k'
        · simp [hk']
        · simp [hk', ih]

end MapLemmas

section ClaimTheoremsEasy

/-- C9 counterexample: the JS lookup `prompts[personality]` traverses the
prototype chain, so the input `toString` — outside the closed set of known
personalities — yields the inherited truthy `Object.prototype.toString`,
the `||` fallback never fires, and the resolver returns a non-prompt value
instead of the default personality's prompt, contrary to the claim. -/
theorem C9_counterexample :
    getPersonalitySystemPrompt "toString" = JsValue.inherited "toString" ∧
    getPersonalitySystemPrompt "toString" ≠ JsValue.promptText promptAutisticAI ∧
    (∀ s : String, getPersonalitySystemPrompt "toString" ≠ JsValue.promptText s) := by
  refine ⟨by decide, by decide, ?_⟩
  intro s hs
  rw [show getPersonalitySystemPrompt "toString" = JsValue.inherited "toString"
    by decide] at hs
  exact JsValue.noConfusion hs

/-- C9 amended: for every personality name outside the closed set of known
personalities, the resolver returns the default personality's prompt iff
the name is also not an inherited `Object.prototype` member; a name such
as `toString` or `constructor` resolves to the inherited (truthy,
non-prompt) value because the `||` fallback only fires on falsy lookup
results. -/
theorem C9_resolver_prototype_leak (p : String)
    (h₁ : p ≠ "AUtistic AI") (h₂ : p ≠ "Level 1 ASD") (h₃ : p ≠ "Savantist") :
    getPersonalitySystemPrompt p =
      (if p ∈ protoProps then JsValue.inherited p
       else JsValue.promptText promptAutisticAI) := by
  unfold getPersonalitySystemPrompt promptsLookup
  by_cases hp : p ∈ protoProps <;>
    simp [h₁, h₂, h₃, hp, jsTruthy, promptAutisticAI]

/-- Witness for the amended C9: the prototype member `toString` leaks the
inherited value, while the plain unknown name `ping` falls back to the
default prompt. -/
theorem C9_resolver_prototype_leak_witness :
    getPersonalitySystemPrompt "toString" = JsValue.inherited "toString" ∧
    getPersonalitySystemPrompt "ping" = JsValue.promptText promptAutisticAI :=
  ⟨(C9_resolver_prototype_leak "toString" (by decide) (by decide)
      (by decide)).trans (by decide),
   (C9_resolver_prototype_leak "ping" (by decide) (by decide)
      (by decide)).trans (by decide)⟩

/-- C5: a `text_input` frame handled while the synthesis socket is `OPEN`
makes the provider receive exactly the wire frame
`{text, try_trigger_generation: true}`; when the socket is not `OPEN` the
directive is dropped — nothing is sent upstream, no error frame, and no
state change. -/
theorem C5_text_input_forwarding (st : Registry) (sess : VoiceStreamingSession)
    (t : String) :
    (wsIsOpen sess.elevenLabsWs = true →
      handleClientMessage st sess (some (ClientFrame.text_input t)) =
        (st, sess, [],
         [{ text := t, try_trigger_generation := some true, flush := none }])) ∧
    (wsIsOpen sess.elevenLabsWs = false →
      handleClientMessage st sess (some (ClientFrame.text_input t)) =
        (st, sess, [], [])) := by
  constructor <;> intro h <;> simp [handleClientMessage, processTextInput, h]

/-- Witness for C5: a session whose synthesis socket is `OPEN` receives
the text frame; an identical session with a `CLOSED` socket drops it. -/
theorem C5_text_input_forwarding_witness :
    handleClientMessage []
        ⟨"s1-1000", "c1", some ⟨WsReadyState.OPEN⟩, true, 1000⟩
        (some (ClientFrame.text_input "hello")) =
      ([], ⟨"s1-1000", "c1", some ⟨WsReadyState.OPEN⟩, true, 1000⟩, [],
       [{ text := "hello", try_trigger_generation := some true, flush := none }]) ∧
    handleClientMessage []
        ⟨"s1-1000", "c1", some ⟨WsReadyState.CLOSED⟩, true, 1000⟩
        (some (ClientFrame.text_input "hello")) =
      ([], ⟨"s1-1000", "c1", some ⟨WsReadyState.CLOSED⟩, true, 1000⟩, [], []) :=
  ⟨(C5_text_input_forwarding []
      ⟨"s1-1000", "c1", some ⟨WsReadyState.OPEN⟩, true, 1000⟩ "hello").1 (by decide),
   (C5_text_input_forwarding []
      ⟨"s1-1000", "c1", some ⟨WsReadyState.CLOSED⟩, true, 1000⟩ "hello").2 (by decide)⟩

/-- C7: a `stop` frame handled while the synthesis socket is `OPEN` sends
exactly the wire frame `{text: "", flush: true}` upstream, and the session
remains open afterward: registry and session are unchanged, no frame goes
to the client, and every subsequent frame is processed exactly as before. -/
theorem C7_stop_flushes_and_session_stays (st : Registry)
    (sess : VoiceStreamingSession) (h : wsIsOpen sess.elevenLabsWs = true) :
    handleClientMessage st sess (some ClientFrame.stop) =
      (st, sess, [],
       [{ text := "", try_trigger_generation := none, flush := some true }]) ∧
    (∀ p, handleClientMessage
        (handleClientMessage st sess (some ClientFrame.stop)).1
        (handleClientMessage st sess (some ClientFrame.stop)).2.1 p =
      handleClientMessage st sess p) := by
  have hmain : handleClientMessage st sess (some ClientFrame.stop) =
      (st, sess, [],
       [{ text := "", try_trigger_generation := none, flush := some true }]) := by
    simp [handleClientMessage, handleStopSpeaking, h]
  exact ⟨hmain, fun p => by rw [hmain]⟩

/-- Witness for C7 at a concrete open session. -/
theorem C7_stop_flushes_and_session_stays_witness :
    handleClientMessage []
        ⟨"s1-1000", "c1", some ⟨WsReadyState.OPEN⟩, true, 1000⟩
        (some ClientFrame.stop) =
      ([], ⟨"s1-1000", "c1", some ⟨WsReadyState.OPEN⟩, true, 1000⟩, [],
       [{ text := "", try_trigger_generation := none, flush := some true }]) :=
  (C7_stop_flushes_and_session_stays []
    ⟨"s1-1000", "c1", some ⟨WsReadyState.OPEN⟩, true, 1000⟩ (by decide)).1

/-- C8: a frame that fails to parse, or parses to an unknown discriminator
such as `ping`, produces no outbound frame, no upstream frame, and no
state change; the session is not terminated, and a subsequent valid `stop`
frame is still processed normally. -/
theorem C8_malformed_and_unknown_tolerated (st : Registry)
    (sess : VoiceStreamingSession) (ty : String) :
    handleClientMessage st sess none = (st, sess, [], []) ∧
    handleClientMessage st sess (some (ClientFrame.other ty)) = (st, sess, [], []) ∧
    (∀ p, handleClientMessage
        (handleClientMessage st sess none).1
        (handleClientMessage st sess none).2.1 p = handleClientMessage st sess p) ∧
    (∀ p, handleClientMessage
        (handleClientMessage st sess (some (ClientFrame.other ty))).1
        (handleClientMessage st sess (some (ClientFrame.other ty))).2.1 p =
      handleClientMessage st sess p) ∧
    (wsIsOpen sess.elevenLabsWs = true →
      handleClientMessage st sess (some ClientFrame.stop) =
        (st, sess, [],
         [{ text := "", try_trigger_generation := none, flush := some true }])) := by
  refine ⟨rfl, rfl, fun p => rfl, fun p => rfl, fun h => ?_⟩
  simp [handleClientMessage, handleStopSpeaking, h]

/-- Witness for C8 at a concrete session and the unknown frame `ping`. -/
theorem C8_malformed_and_unknown_tolerated_witness :
    handleClientMessage []
        ⟨"s1-1000", "c1", some ⟨WsReadyState.OPEN⟩, true, 1000⟩
        (some (ClientFrame.other "ping")) =
      ([], ⟨"s1-1000", "c1", some ⟨WsReadyState.OPEN⟩, true, 1000⟩, [], []) ∧
    handleClientMessage []
        ⟨"s1-1000", "c1", some ⟨WsReadyState.OPEN⟩, true, 1000⟩
        (some ClientFrame.stop) =
      ([], ⟨"s1-1000", "c1", some ⟨WsReadyState.OPEN⟩, true, 1000⟩, [],
       [{ text := "", try_trigger_generation := none, flush := some true }]) :=
  ⟨(C8_malformed_and_unknown_tolerated []
      ⟨"s1-1000", "c1", some ⟨WsReadyState.OPEN⟩, true, 1000⟩ "ping").2.1,
   (C8_malformed_and_unknown_tolerated []
      ⟨"s1-1000", "c1", some ⟨WsReadyState.OPEN⟩, true, 1000⟩ "ping").2.2.2.2 (by decide)⟩

/-- C10: a provider frame whose `audio` field is not truthy — including a
frame that carries only `isFinal: true` — produces no client frame and no
cache-persist call: the whole handler body is skipped. -/
theorem C10_payloadless_frame_dropped (sess : VoiceStreamingSession)
    (r : ElevenLabsInFrame) (tok : String) (sf : Bool)
    (h : truthy r.audio = false) :
    onElevenLabsMessage sess (some r) tok sf = [] := by
  simp [onElevenLabsMessage, h]

/-- Witness for C10 at a payload-less final frame `{isFinal: true}`. -/
theorem C10_payloadless_frame_dropped_witness :
    onElevenLabsMessage ⟨"s1-1000", "c1", none, true, 1000⟩
      (some ⟨none, none, true⟩) "tok" false = [] :=
  C10_payloadless_frame_dropped ⟨"s1-1000", "c1", none, true, 1000⟩
    ⟨none, none, true⟩ "tok" false rfl

/-- C4: a provider frame with a truthy `audio` payload is forwarded to the
client as an `audio_output` frame carrying that payload and alignment, the
client send comes first in the event trace, a cache-persist attempt is made
exactly when the frame is final, and the client-bound frames are the same
whether or not the persistence call fails. -/
theorem C4_audio_forwarded_then_cached (sess : VoiceStreamingSession)
    (r : ElevenLabsInFrame) (tok : String) (sf : Bool)
    (h : truthy r.audio = true) :
    (onElevenLabsMessage sess (some r) tok sf).head? =
      some (SessionEvent.clientSend
        (ServerFrame.audio_output (r.audio.getD "") r.alignment)) ∧
    clientFrames (onElevenLabsMessage sess (some r) tok sf) =
      [ServerFrame.audio_output (r.audio.getD "") r.alignment] ∧
    cacheAttempts (onElevenLabsMessage sess (some r) tok sf) =
      (if r.isFinal then 1 else 0) ∧
    clientFrames (onElevenLabsMessage sess (some r) tok true) =
      clientFrames (onElevenLabsMessage sess (some r) tok false) := by
  rcases hf : r.isFinal <;> rcases sf <;>
    simp [onElevenLabsMessage, h, hf, cacheAudioOutput, clientFrames, cacheAttempts]

/-- Witness for C4 at the final frame `{audio: "QUJD", isFinal: true}` with
a failing cache persist. -/
theorem C4_audio_forwarded_then_cached_witness :
    clientFrames (onElevenLabsMessage ⟨"s1-1000", "c1", none, true, 1000⟩
        (some ⟨some "QUJD", none, true⟩) "tok" true) =
      [ServerFrame.audio_output "QUJD" none] :=
  (C4_audio_forwarded_then_cached ⟨"s1-1000", "c1", none, true, 1000⟩
    ⟨some "QUJD", none, true⟩ "tok" true (by decide)).2.1

/-- C6: session removal is idempotent — `cleanupSession` on an absent key
is a no-op with no side effects, and removing a session twice leaves the
registry in the same state, with no additional side effects, as removing
it once. -/
theorem C6_cleanup_idempotent (st : Registry) (k : String) :
    (mapGet st k = none → cleanupSession st k = (st, [])) ∧
    cleanupSession (cleanupSession st k).1 k = ((cleanupSession st k).1, []) := by
  constructor
  · intro h
    simp [cleanupSession, h]
  · rcases hg : mapGet st k with _ | sess
    · simp [cleanupSession, hg]
    · simp [cleanupSession, hg, mapGet_mapDelete_self]

/-- Witness for C6: removal of an absent key on the empty registry, and the
second removal of a present key being effect-free. -/
theorem C6_cleanup_idempotent_witness :
    cleanupSession [] "s1-1000" = ([], []) ∧
    cleanupSession
        (cleanupSession
          [("s1-1000", ⟨"s1-1000", "c1", some ⟨WsReadyState.OPEN⟩, true, 1000⟩)]
          "s1-1000").1 "s1-1000" =
      ((cleanupSession
          [("s1-1000", ⟨"s1-1000", "c1", some ⟨WsReadyState.OPEN⟩, true, 1000⟩)]
          "s1-1000").1, []) :=
  ⟨(C6_cleanup_idempotent [] "s1-1000").1 rfl,
   (C6_cleanup_idempotent
      [("s1-1000", ⟨"s1-1000", "c1", some ⟨WsReadyState.OPEN⟩, true, 1000⟩)]
      "s1-1000").2⟩

end ClaimTheoremsEasy

section ClaimTheoremsFailure

/-- C2 counterexample: a real synthesis connect failure (DNS/TCP/handshake)
does not reject the awaited `initializeElevenLabs` call — the promise
resolves as soon as handlers are registered, and the failure arrives later
as the socket's `error` event.  At that point `voice_ready` has already
been sent and the `error` handler does no teardown, so at a concrete input
the client receives `voice_ready` (the session reaches READY) and the
registry entry is kept — contradicting the claim that on a synthesis-open
failure the session never reaches READY and its entry is removed. -/
theorem C2_counterexample :
    (initThenAsyncConnectFailure [] "s1" "c1" 1000).2 =
      [ServerFrame.voice_ready "Voice streaming ready",
       ServerFrame.error "TTS connection error"] ∧
    mapGet (initThenAsyncConnectFailure [] "s1" "c1" 1000).1
        (sessionKeyOf "s1" 1000) =
      some { sessionId := sessionKeyOf "s1" 1000, conversationId := "c1",
             elevenLabsWs := some ⟨WsReadyState.CONNECTING⟩,
             isActive := true, startTime := 1000 } := by
  constructor <;> decide

/-- C2 amended: only a synchronous throw inside the awaited ElevenLabs
setup (e.g. the `WebSocket` constructor throwing) fails initialization —
then the client receives exactly the structured error frame, `voice_ready`
is never sent, the registry entry is removed immediately, and every other
registry key is untouched.  An asynchronous upstream connect failure does
not reject the awaited call: the session still reaches READY
(`voice_ready` is sent, then the `TTS connection error` frame) and its
registry entry is kept. -/
theorem C2_sync_throw_fatal_async_connect_not (st : Registry)
    (sid cid : String) (now : Nat) (gF : Bool) :
    ((initVoiceSession st sid cid now true gF).2 =
        [ServerFrame.error "Failed to initialize voice streaming"] ∧
      (∀ m, ServerFrame.voice_ready m ∉ (initVoiceSession st sid cid now true gF).2) ∧
      mapGet (initVoiceSession st sid cid now true gF).1 (sessionKeyOf sid now) = none ∧
      (∀ k, k ≠ sessionKeyOf sid now →
        mapGet (initVoiceSession st sid cid now true gF).1 k = mapGet st k)) ∧
    ((initThenAsyncConnectFailure st sid cid now).2 =
        [ServerFrame.voice_ready "Voice streaming ready",
         ServerFrame.error "TTS connection error"] ∧
      mapGet (initThenAsyncConnectFailure st sid cid now).1 (sessionKeyOf sid now) =
        some { freshSession (sessionKeyOf sid now) cid now with
               elevenLabsWs := some ⟨WsReadyState.CONNECTING⟩ }) := by
  refine ⟨⟨?_, ?_, ?_, ?_⟩, ?_, ?_⟩
  · simp [initVoiceSession]
  · intro m
    simp [initVoiceSession]
  · simp [initVoiceSession, cleanupSession, mapGet_mapSet_self, mapGet_mapDelete_self]
  · intro k hk
    simp [initVoiceSession, cleanupSession, mapGet_mapSet_self,
      mapGet_mapDelete_ne _ _ _ hk, mapGet_mapSet_ne _ _ _ _ hk]
  · simp [initThenAsyncConnectFailure, initVoiceSession, mapGet_mapSet_self,
      onElevenLabsError]
  · simp [initThenAsyncConnectFailure, initVoiceSession, mapGet_mapSet_self,
      onElevenLabsError]

/-- Witness for the amended C2: a concrete synchronous-throw initialization
leaves an unrelated key untouched (and, by the applied theorem, removed
its own entry while an async connect failure would have kept it). -/
theorem C2_sync_throw_fatal_async_connect_not_witness :
    mapGet (initVoiceSession [] "s1" "c1" 5 true false).1 "other" =
      mapGet [] "other" :=
  (C2_sync_throw_fatal_async_connect_not [] "s1" "c1" 5 false).1.2.2.2
    "other" (by decide)

/-- C3 counterexample: at a concrete registry holding one session with an
`OPEN` synthesis socket, the ElevenLabs `error` handler sends the error
frame but performs no teardown — the registry still contains the session
and no link-close effect is emitted — contradicting the claim that the
link is closed and the registry entry removed. -/
theorem C3_counterexample :
    (onElevenLabsError
        [("s1-1000", ⟨"s1-1000", "c1", some ⟨WsReadyState.OPEN⟩, true, 1000⟩)]
        ⟨"s1-1000", "c1", some ⟨WsReadyState.OPEN⟩, true, 1000⟩).2.2.1 =
      [ServerFrame.error "TTS connection error"] ∧
    mapGet (onElevenLabsError
        [("s1-1000", ⟨"s1-1000", "c1", some ⟨WsReadyState.OPEN⟩, true, 1000⟩)]
        ⟨"s1-1000", "c1", some ⟨WsReadyState.OPEN⟩, true, 1000⟩).1 "s1-1000" =
      some ⟨"s1-1000", "c1", some ⟨WsReadyState.OPEN⟩, true, 1000⟩ ∧
    (onElevenLabsError
        [("s1-1000", ⟨"s1-1000", "c1", some ⟨WsReadyState.OPEN⟩, true, 1000⟩)]
        ⟨"s1-1000", "c1", some ⟨WsReadyState.OPEN⟩, true, 1000⟩).2.2.2 = [] := by
  refine ⟨rfl, ?_, rfl⟩
  simp [onElevenLabsError, mapGet]

/-- C3 amended: on a mid-session synthesis transport error the client
receives exactly one error frame, but the handler performs no teardown —
the registry and the session are unchanged and no teardown effect occurs;
the registry entry is removed only later, when the client socket closes
and `cleanupSession` runs. -/
theorem C3_error_frame_without_teardown (st : Registry)
    (sess : VoiceStreamingSession) (h : mapGet st sess.sessionId = some sess) :
    (onElevenLabsError st sess).2.2.1 = [ServerFrame.error "TTS connection error"] ∧
    (onElevenLabsError st sess).1 = st ∧
    (onElevenLabsError st sess).2.1 = sess ∧
    (onElevenLabsError st sess).2.2.2 = [] ∧
    mapGet (onClientClose (onElevenLabsError st sess).1
      (onElevenLabsError st sess).2.1).1 sess.sessionId = none := by
  refine ⟨rfl, rfl, rfl, rfl, ?_⟩
  simp [onClientClose, onElevenLabsError, cleanupSession, h, mapGet_mapDelete_self]

/-- Witness for the amended C3 at a concrete one-session registry. -/
theorem C3_error_frame_without_teardown_witness :
    mapGet (onClientClose (onElevenLabsError
        [("s1-1000", ⟨"s1-1000", "c1", some ⟨WsReadyState.OPEN⟩, true, 1000⟩)]
        ⟨"s1-1000", "c1", some ⟨WsReadyState.OPEN⟩, true, 1000⟩).1
      (onElevenLabsError
        [("s1-1000", ⟨"s1-1000", "c1", some ⟨WsReadyState.OPEN⟩, true, 1000⟩)]
        ⟨"s1-1000", "c1", some ⟨WsReadyState.OPEN⟩, true, 1000⟩).2.1).1
      "s1-1000" = none :=
  (C3_error_frame_without_teardown
    [("s1-1000", ⟨"s1-1000", "c1", some ⟨WsReadyState.OPEN⟩, true, 1000⟩)]
    ⟨"s1-1000", "c1", some ⟨WsReadyState.OPEN⟩, true, 1000⟩ (by decide)).2.2.2.2

end ClaimTheoremsFailure

section ReprInjective

/-- Decimal digit list of a natural number, most significant digit first;
a reference recursion used to reason about `Nat.repr`. -/
def reprDigits (n : Nat) : List Char :=
  if _h : n < 10 then [Nat.digitChar n]
  else reprDigits (n / 10) ++ [Nat.digitChar (n % 10)]
decreasing_by
  exact Nat.div_lt_self (by omega) (by omega)

theorem toDigitsCore_eq_reprDigits (fuel : Nat) :
    ∀ (n : Nat) (ds : List Char), n ≤ fuel →
      Nat.toDigitsCore 10 (fuel + 1) n ds = reprDigits n ++ ds := by
  induction fuel with
  | zero =>
      intro n ds h
      have hn : n = 0 := Nat.le_zero.mp h
      subst hn
      simp [Nat.toDigitsCore, reprDigits]
  | succ fuel ih =>
      intro n ds h
      rw [Nat.toDigitsCore]
      by_cases h10 : n / 10 = 0
      · have hn : n < 10 := by omega
        rw [if_pos h10, reprDigits, dif_pos hn, Nat.mod_eq_of_lt hn]
        rfl
      · have hge : ¬ n < 10 := by
          intro hlt
          exact h10 (Nat.div_eq_of_lt hlt)
        have hlt : n / 10 < n := Nat.div_lt_self (by omega) (by omega)
        rw [if_neg h10, reprDigits, dif_neg hge,
          ih (n / 10) (Nat.digitChar (n % 10) :: ds) (by omega), List.append_assoc]
        rfl

theorem Nat_repr_eq_reprDigits (n : Nat) :
    Nat.repr n = (reprDigits n).asString := by
  unfold Nat.repr Nat.toDigits
  rw [toDigitsCore_eq_reprDigits n n [] (Nat.le_refl n), List.append_nil]

/-- Decimal decoding of a digit character list (left fold, most significant
first). -/
def decodeDigits (l : List Char) : Nat :=
  l.foldl (fun a c => 10 * a + (c.toNat - 48)) 0

theorem digitChar_toNat : ∀ m, m < 10 → (Nat.digitChar m).toNat = 48 + m := by
  decide

theorem decodeDigits_reprDigits (n : Nat) :
    decodeDigits (reprDigits n) = n := by
  induction n using Nat.strong_induction_on with
  | _ n ih =>
    by_cases h : n < 10
    · rw [reprDigits, dif_pos h]
      simp [decodeDigits, digitChar_toNat n h]
    · rw [reprDigits, dif_neg h]
      have hlt : n / 10 < n := Nat.div_lt_self (by omega) (by omega)
      have hmod : n % 10 < 10 := Nat.mod_lt _ (by omega)
      have hstep : decodeDigits (reprDigits (n / 10) ++ [Nat.digitChar (n % 10)]) =
          10 * decodeDigits (reprDigits (n / 10)) + (n % 10) := by
        unfold decodeDigits
        rw [List.foldl_append]
        simp [digitChar_toNat _ hmod]
      rw [hstep, ih _ hlt]
      omega

theorem Nat_repr_injective (m n : Nat) (h : Nat.repr m = Nat.repr n) :
    m = n := by
  rw [Nat_repr_eq_reprDigits, Nat_repr_eq_reprDigits] at h
  have hdata : reprDigits m = reprDigits n := congrArg String.data h
  calc m = decodeDigits (reprDigits m) := (decodeDigits_reprDigits m).symm
    _ = decodeDigits (reprDigits n) := by rw [hdata]
    _ = n := decodeDigits_reprDigits n

theorem sessionKeyOf_now_injective (s : String) (n₁ n₂ : Nat)
    (h : sessionKeyOf s n₁ = sessionKeyOf s n₂) : n₁ = n₂ := by
  unfold sessionKeyOf at h
  have hdata := congrArg String.data h
  simp only [String.data_append, List.append_assoc] at hdata
  have h₁ := List.append_cancel_left hdata
  have h₂ := List.append_cancel_left h₁
  have hs : (toString n₁ : String) = toString n₂ := by
    apply congrArg List.asString at h₂
    simpa [List.asString] using h₂
  exact Nat_repr_injective n₁ n₂ hs

end ReprInjective

section RegistryInvariant

theorem mem_keys_mapSet (st : Registry) (k x : String)
    (v : VoiceStreamingSession)
    (h : x ∈ (mapSet st k v).map Prod.fst) :
    x = k ∨ x ∈ st.map Prod.fst := by
  induction st with
  | nil =>
      simp only [mapSet, List.map_cons, List.map_nil, List.mem_cons,
        List.not_mem_nil, or_false] at h
      exact Or.inl h
  | cons p rest ih =>
      obtain ⟨k₁, v₁⟩ := p
      by_cases hk : k₁ = k
      · subst hk
        rw [show mapSet ((k₁, v₁) :: rest) k₁ v = (k₁, v) :: rest by
          simp [mapSet]] at h
        simp only [List.map_cons, List.mem_cons] at h
        rcases h with h | h
        · exact Or.inr (by simp [h])
        · exact Or.inr (by simp [h])
      · rw [show mapSet ((k₁, v₁) :: rest) k v = (k₁, v₁) :: mapSet rest k v by
          simp [mapSet, hk]] at h
        simp only [List.map_cons, List.mem_cons] at h
        rcases h with h | h
        · exact Or.inr (by simp [h])
        · rcases ih h with h' | h'
          · exact Or.inl h'
          · exact Or.inr (by simp [h'])

theorem registryWF_mapSet (st : Registry) (k : String)
    (v : VoiceStreamingSession) (h : RegistryWF st) :
    RegistryWF (mapSet st k v) := by
  induction st with
  | nil => simp [RegistryWF, mapSet]
  | cons p rest ih =>
      obtain ⟨k₁, v₁⟩ := p
      unfold RegistryWF at h
      simp only [List.map_cons, List.nodup_cons] at h
      obtain ⟨hnot, hrest⟩ := h
      by_cases hk : k₁ = k
      · subst hk
        unfold RegistryWF
        simp [mapSet, List.nodup_cons, hnot, hrest]
      · unfold RegistryWF
        simp only [mapSet, if_neg hk, List.map_cons, List.nodup_cons]
        refine ⟨?_, ih hrest⟩
        intro hmem
        rcases mem_keys_mapSet rest k k₁ v hmem with h' | h'
        · exact hk h'
        · exact hnot h'

theorem keys_mapDelete_sublist (st : Registry) (k : String) :
    List.Sublist ((mapDelete st k).map Prod.fst) (st.map Prod.fst) := by
  induction st with
  | nil => exact List.Sublist.refl _
  | cons p rest ih =>
      obtain ⟨k₁, v₁⟩ := p
      by_cases hk : k₁ = k
      · simpa [mapDelete, hk] using ih.cons k₁
      · simpa [mapDelete, hk] using ih.cons₂ k₁

theorem registryWF_mapDelete (st : Registry) (k : String)
    (h : RegistryWF st) : RegistryWF (mapDelete st k) :=
  List.Nodup.sublist (keys_mapDelete_sublist st k) h

theorem registryWF_cleanup (st : Registry) (k : String)
    (h : RegistryWF st) : RegistryWF (cleanupSession st k).1 := by
  unfold cleanupSession
  rcases mapGet st k with _ | sess
  · exact h
  · exact registryWF_mapDelete st k h

theorem registryWF_initVoiceSession (st : Registry) (sid cid : String)
    (now : Nat) (eF gF : Bool) (h : RegistryWF st) :
    RegistryWF (initVoiceSession st sid cid now eF gF).1 := by
  unfold initVoiceSession
  rcases eF
  · rcases gF
    · simp only [Bool.false_eq_true, if_false]
      exact registryWF_mapSet _ _ _ (registryWF_mapSet _ _ _ h)
    · simp only [if_true, Bool.false_eq_true, if_false]
      exact registryWF_cleanup _ _ (registryWF_mapSet _ _ _ (registryWF_mapSet _ _ _ h))
  · simp only [if_true]
    exact registryWF_cleanup _ _ (registryWF_mapSet _ _ _ h)

end RegistryInvariant

section ClaimTheoremC1

/-- C1 counterexample: two session creations with the same `sessionId`
and `conversationId` requested in the same instant (`Date.now()` returns
1000 for both) build the same sessionKey, so the keys are not pairwise
distinct: after the two creations the registry holds exactly one entry,
and the entry stored under the shared key is the second session (the
first was overwritten). -/
theorem C1_counterexample :
    sessionKeyOf "s1" 1000 = sessionKeyOf "s1" 1000 ∧
    ((initVoiceSession ((initVoiceSession [] "s1" "c1" 1000 false false).1)
        "s1" "c2" 1000 false false).1).length = 1 ∧
    mapGet (initVoiceSession ((initVoiceSession [] "s1" "c1" 1000 false false).1)
        "s1" "c2" 1000 false false).1 (sessionKeyOf "s1" 1000) =
      some { sessionId := sessionKeyOf "s1" 1000, conversationId := "c2",
             elevenLabsWs := some ⟨WsReadyState.CONNECTING⟩,
             isActive := true, startTime := 1000 } := by
  refine ⟨rfl, ?_, ?_⟩ <;> decide

/-- C1 amended: sessionKeys for the same `sessionId` are pairwise distinct
whenever the creation timestamps (`Date.now()` values) differ; two
creations with the same `sessionId` within the same millisecond collide,
the second overwriting the first registry entry.  Because the registry is
a map, it keeps at most one VoiceSession per sessionKey: key uniqueness is
preserved by every session creation. -/
theorem C1_sessionKey_distinct_across_instants (s cid : String)
    (now₁ now₂ : Nat) (h : now₁ ≠ now₂) (st : Registry) (eF gF : Bool)
    (hwf : RegistryWF st) :
    sessionKeyOf s now₁ ≠ sessionKeyOf s now₂ ∧
    RegistryWF (initVoiceSession st s cid now₁ eF gF).1 :=
  ⟨fun hk => h (sessionKeyOf_now_injective s now₁ now₂ hk),
   registryWF_initVoiceSession st s cid now₁ eF gF hwf⟩

/-- Witness for the amended C1 at timestamps 1000 and 1001. -/
theorem C1_sessionKey_distinct_across_instants_witness :
    sessionKeyOf "s1" 1000 ≠ sessionKeyOf "s1" 1001 ∧
    RegistryWF (initVoiceSession [] "s1" "c1" 1000 false false).1 :=
  C1_sessionKey_distinct_across_instants "s1" "c1" 1000 1001 (by decide)
    [] false false (by simp [RegistryWF])

end ClaimTheoremC1
